import Mathlib

/-!
Shallow embedding of the ReVCS native editor helper
(`src/ReVCS/native/src/main.cpp`): the launcher `open_editor` and the JNI
bridge entry point.  The code is modelled as a deterministic function from
the outcomes the operating system hands back (the return value of the fork
primitive, whether the exec primitive fails, the ambient environment
variables, the child exit status the wait primitive would report) to the
trace of observable calls the code makes together with how the invocation
ends.
-/

namespace ReVCS

/-- Observable calls made by the helper.  A wait event records the target
pid filter (the wait primitive takes none) and whether the caller asked for
the child status (the code passes a null status pointer, so false).  The
source never writes to standard output; the constructor exists so that
silence on that stream is expressible. -/
inductive Event where
  | fork : Event
  | exec (path : String) (argv : List String) : Event
  | wait (target : Option Nat) (statusRequested : Bool) : Event
  | writeStdout (s : String) : Event
  | writeStderr (s : String) : Event
  | flushStderr : Event
deriving DecidableEq, Repr

/-- How one run of the launcher ends: a normal return to the caller, a
process termination via exit with the given status, or the child process
image being replaced by the editor (a successful exec never returns). -/
inductive Result where
  | returned : Result
  | exited (status : Int) : Result
  | replaced : Result
deriving DecidableEq, Repr

/-- The outcomes the operating system supplies to one run: the value fork
returns in the modelled process (-1 failure, 0 child, positive pid parent),
whether exec fails in the child, the ambient environment variables, and the
exit status of the child that wait would report.  The source reads only the
first two fields; carrying the others lets independence from them be
stated. -/
structure OsEnv where
  forkRes : Int
  execFails : Bool
  vars : List (String × String)
  childStatus : Int
deriving Repr

/-- The diagnostic text the source streams to cerr before exiting. -/
def diagnosticMsg : String := "Unable to call editor right now, exiting with status -1."

/-- Events of the shared returnErr block: stream the diagnostic, endl
writes a newline and flushes, then flush(cerr) flushes again. -/
def returnErr : List Event :=
  [Event.writeStderr diagnosticMsg, Event.writeStderr "\n",
   Event.flushStderr, Event.flushStderr]

/-- Embedding of `open_editor` from main.cpp: set editor to "vi", fork,
branch on the pid exactly as the source does (== -1 error, == 0 child exec
with argv [editor, filename] falling through to returnErr on exec failure,
otherwise wait with no pid filter and a null status pointer, then return). -/
def open_editor (filename : String) (os : OsEnv) : List Event × Result :=
  let editor := "vi"
  let pid := os.forkRes
  if pid = -1 then
    (Event.fork :: returnErr, Result.exited (-1))
  else if pid = 0 then
    if os.execFails then
      (Event.fork :: Event.exec editor [editor, filename] :: returnErr,
       Result.exited (-1))
    else
      ([Event.fork, Event.exec editor [editor, filename]], Result.replaced)
  else
    ([Event.fork, Event.wait none false], Result.returned)

/-- Outcome of the JNI bridge: either the launcher ran on the decoded
string, or the decode returned null and the source constructed a native
string from a null pointer, which is undefined behavior. -/
inductive BridgeOutcome where
  | ran (events : List Event) (result : Result) : BridgeOutcome
  | nullDecodeUB : BridgeOutcome
deriving DecidableEq, Repr

/-- Embedding of the JNI entry point from main.cpp: decode the host string
handle (GetStringUTFChars, modelled as an Option since it returns null on
failure) and call open_editor on the decoded bytes.  The source performs no
null check: a failed decode flows straight into the std::string
constructor, i.e. undefined behavior, modelled by the nullDecodeUB
outcome. -/
def Java_com_dheerajshyam_revcs_Staging_open_1editor
    (decoded : Option String) (os : OsEnv) : BridgeOutcome :=
  match decoded with
  | some c_file_name =>
      let r := open_editor c_file_name os
      BridgeOutcome.ran r.1 r.2
  | none => BridgeOutcome.nullDecodeUB

/-- The exec calls appearing in a trace, as (path, argv) pairs. -/
def execCalls (tr : List Event) : List (String × List String) :=
  tr.filterMap fun e =>
    match e with
    | Event.exec p argv => some (p, argv)
    | _ => none

/-- The wait calls appearing in a trace, as (target, statusRequested)
pairs. -/
def waitCalls (tr : List Event) : List (Option Nat × Bool) :=
  tr.filterMap fun e =>
    match e with
    | Event.wait t b => some (t, b)
    | _ => none

/-- Everything a trace writes to the standard error stream, concatenated in
order. -/
def stderrOutput (tr : List Event) : String :=
  tr.foldl (fun acc e =>
    match e with
    | Event.writeStderr s => acc ++ s
    | _ => acc) ""

/-- The payloads a trace writes to standard output or standard error, in
order. -/
def stdStreamWrites (tr : List Event) : List String :=
  tr.filterMap fun e =>
    match e with
    | Event.writeStdout s => some s
    | Event.writeStderr s => some s
    | _ => none

/-- Semantics of the pid-unfiltered wait primitive the source calls: it
reaps the earliest-terminated zombie among all children of the calling
process, whichever child that is. -/
def waitAnyReaps (terminated : List Nat) : Option Nat :=
  terminated.head?

/-- argv[1] of the single exec call recorded in a bridge outcome, when
there is exactly one. -/
def bridgeArgv1 (o : BridgeOutcome) : Option String :=
  match o with
  | BridgeOutcome.ran tr _ =>
      match execCalls tr with
      | [(_, argv)] => argv[1]?
      | _ => none
  | BridgeOutcome.nullDecodeUB => none

/-- A bridge outcome that matches the launcher fatal path: the launcher
ran, wrote something to standard error, and the process exited with a
non-zero status. -/
def fatalBridge (o : BridgeOutcome) : Prop :=
  ∃ tr r, o = BridgeOutcome.ran tr r ∧
    (∃ s, Event.writeStderr s ∈ tr) ∧
    ∃ c, r = Result.exited c ∧ c ≠ 0

/-- Helper: the launcher reads only the fork result and the exec failure
flag from the operating system; environment variables and the child status
never influence it. -/
theorem open_editor_reads_only_fork_exec (F : String) (os os' : OsEnv)
    (hf : os.forkRes = os'.forkRes) (he : os.execFails = os'.execFails) :
    open_editor F os = open_editor F os' := by
  simp only [open_editor, hf, he]

/-- Claim C1: in the child path, the launcher calls the exec primitive
exactly once, with path "vi" and argv exactly ["vi", F]: argv[0] is the
editor command, argv[1] is the filename verbatim, and there are no further
arguments. -/
theorem C1_exec_argv (F : String) (os : OsEnv) (h : os.forkRes = 0) :
    execCalls (open_editor F os).1 = [("vi", ["vi", F])] := by
  cases hb : os.execFails <;>
    simp [open_editor, h, hb, execCalls, returnErr]

/-- Claim C1 witness at a concrete input. -/
theorem C1_exec_argv_witness :
    execCalls (open_editor "a.txt" ⟨0, false, [], 0⟩).1 =
      [("vi", ["vi", "a.txt"])] :=
  C1_exec_argv "a.txt" ⟨0, false, [], 0⟩ rfl

/-- Claim C2: when fork returns a positive pid, the parent calls the wait
primitive exactly once with no pid filter and a null status pointer (so the
child exit status is never inspected), that wait is the last observable
call before the launcher returns, and the launcher returns normally
whatever the child status was. -/
theorem C2_parent_waits_once (F : String) (os : OsEnv) (h : 0 < os.forkRes) :
    open_editor F os = ([Event.fork, Event.wait none false], Result.returned) ∧
    waitCalls (open_editor F os).1 = [(none, false)] ∧
    (open_editor F os).1.getLast? = some (Event.wait none false) := by
  have h1 : os.forkRes ≠ -1 := by omega
  have h2 : os.forkRes ≠ 0 := by omega
  refine ⟨?_, ?_, ?_⟩ <;> simp [open_editor, h1, h2, waitCalls]

/-- Claim C2 witness at a concrete input. -/
theorem C2_parent_waits_once_witness :
    open_editor "a.txt" ⟨5, false, [], 0⟩ =
        ([Event.fork, Event.wait none false], Result.returned) ∧
      waitCalls (open_editor "a.txt" ⟨5, false, [], 0⟩).1 = [(none, false)] ∧
      (open_editor "a.txt" ⟨5, false, [], 0⟩).1.getLast? =
        some (Event.wait none false) :=
  C2_parent_waits_once "a.txt" ⟨5, false, [], 0⟩ (by decide)

/-- Claim C3: when fork returns -1 the launcher writes a single diagnostic
line ending with a newline to standard error, flushes it, never calls the
wait primitive, does not return to its caller, and exits with status -1. -/
theorem C3_fork_failure (F : String) (os : OsEnv) (h : os.forkRes = -1) :
    open_editor F os = (Event.fork :: returnErr, Result.exited (-1)) ∧
    stderrOutput (open_editor F os).1 = diagnosticMsg ++ "\n" ∧
    (stderrOutput (open_editor F os).1).toList.getLast? = some (Char.ofNat 10) ∧
    (stderrOutput (open_editor F os).1).toList.count (Char.ofNat 10) = 1 ∧
    Event.flushStderr ∈ (open_editor F os).1 ∧
    waitCalls (open_editor F os).1 = [] ∧
    (open_editor F os).2 ≠ Result.returned ∧
    (open_editor F os).2 = Result.exited (-1) := by
  have htr : open_editor F os = (Event.fork :: returnErr, Result.exited (-1)) := by
    simp [open_editor, h]
  rw [htr]
  refine ⟨rfl, by decide, by decide, by decide, by decide, by decide, by decide, rfl⟩

/-- Claim C3 witness at a concrete input. -/
theorem C3_fork_failure_witness :
    open_editor "a.txt" ⟨-1, false, [], 0⟩ =
        (Event.fork :: returnErr, Result.exited (-1)) ∧
      stderrOutput (open_editor "a.txt" ⟨-1, false, [], 0⟩).1 =
        diagnosticMsg ++ "\n" ∧
      (stderrOutput (open_editor "a.txt" ⟨-1, false, [], 0⟩).1).toList.getLast? =
        some (Char.ofNat 10) ∧
      (stderrOutput (open_editor "a.txt" ⟨-1, false, [], 0⟩).1).toList.count
        (Char.ofNat 10) = 1 ∧
      Event.flushStderr ∈ (open_editor "a.txt" ⟨-1, false, [], 0⟩).1 ∧
      waitCalls (open_editor "a.txt" ⟨-1, false, [], 0⟩).1 = [] ∧
      (open_editor "a.txt" ⟨-1, false, [], 0⟩).2 ≠ Result.returned ∧
      (open_editor "a.txt" ⟨-1, false, [], 0⟩).2 = Result.exited (-1) :=
  C3_fork_failure "a.txt" ⟨-1, false, [], 0⟩ rfl

/-- Claim C4: when fork returns 0 (child) and exec fails, the child writes
the same diagnostic line to standard error, flushes it, exits with status
-1, never returns to the caller, and never calls the wait primitive. -/
theorem C4_exec_failure (F : String) (os : OsEnv)
    (h0 : os.forkRes = 0) (h1 : os.execFails = true) :
    open_editor F os =
        (Event.fork :: Event.exec "vi" ["vi", F] :: returnErr,
         Result.exited (-1)) ∧
    stderrOutput (open_editor F os).1 = diagnosticMsg ++ "\n" ∧
    Event.flushStderr ∈ (open_editor F os).1 ∧
    waitCalls (open_editor F os).1 = [] ∧
    (open_editor F os).2 ≠ Result.returned ∧
    (open_editor F os).2 = Result.exited (-1) := by
  have htr : open_editor F os =
      (Event.fork :: Event.exec "vi" ["vi", F] :: returnErr,
       Result.exited (-1)) := by
    simp [open_editor, h0, h1]
  rw [htr]
  refine ⟨rfl, ?_, ?_, ?_, ?_, rfl⟩
  · show stderrOutput returnErr = diagnosticMsg ++ "\n"
    decide
  · simp [returnErr]
  · simp [waitCalls, returnErr]
  · show (Result.exited (-1) : Result) ≠ Result.returned
    decide

/-- Claim C4 witness at a concrete input. -/
theorem C4_exec_failure_witness :
    open_editor "a.txt" ⟨0, true, [], 0⟩ =
        (Event.fork :: Event.exec "vi" ["vi", "a.txt"] :: returnErr,
         Result.exited (-1)) ∧
      stderrOutput (open_editor "a.txt" ⟨0, true, [], 0⟩).1 =
        diagnosticMsg ++ "\n" ∧
      Event.flushStderr ∈ (open_editor "a.txt" ⟨0, true, [], 0⟩).1 ∧
      waitCalls (open_editor "a.txt" ⟨0, true, [], 0⟩).1 = [] ∧
      (open_editor "a.txt" ⟨0, true, [], 0⟩).2 ≠ Result.returned ∧
      (open_editor "a.txt" ⟨0, true, [], 0⟩).2 = Result.exited (-1) :=
  C4_exec_failure "a.txt" ⟨0, true, [], 0⟩ rfl rfl

/-- Claim C5: string passthrough through the bridge.  For every string S,
invoking the bridge entry point with a successful decode of S makes the
spawn primitive receive argv[1] equal to S, the same bytes verbatim. -/
theorem C5_passthrough (S : String) (os : OsEnv) (h : os.forkRes = 0) :
    bridgeArgv1 (Java_com_dheerajshyam_revcs_Staging_open_1editor (some S) os) =
      some S := by
  cases hb : os.execFails <;>
    simp [Java_com_dheerajshyam_revcs_Staging_open_1editor, bridgeArgv1,
      open_editor, h, hb, execCalls, returnErr]

/-- Claim C5 witness at a concrete input. -/
theorem C5_passthrough_witness :
    bridgeArgv1 (Java_com_dheerajshyam_revcs_Staging_open_1editor
      (some "héllo.txt") ⟨0, false, [], 0⟩) = some "héllo.txt" :=
  C5_passthrough "héllo.txt" ⟨0, false, [], 0⟩ rfl

/-- Claim C6 counterexample: at the concrete input where the decode
primitive returns null, the bridge does not take the launcher fatal path
(no diagnostic on standard error, no non-zero exit termination): the source
performs no null check and proceeds with the null result, which is
undefined behavior in the std::string constructor. -/
theorem C6_counterexample :
    Java_com_dheerajshyam_revcs_Staging_open_1editor none ⟨-1, false, [], 0⟩ =
        BridgeOutcome.nullDecodeUB ∧
      ¬ fatalBridge
        (Java_com_dheerajshyam_revcs_Staging_open_1editor none
          ⟨-1, false, [], 0⟩) := by
  refine ⟨rfl, ?_⟩
  rintro ⟨tr, r, heq, -, -⟩
  simp [Java_com_dheerajshyam_revcs_Staging_open_1editor] at heq

/-- Claim C6 amended: on a failed (null) decode the bridge performs no
check and proceeds to construct the native string from the null result,
which is undefined behavior; the bridge itself writes no diagnostic and
performs no termination. -/
theorem C6_amended (os : OsEnv) :
    Java_com_dheerajshyam_revcs_Staging_open_1editor none os =
      BridgeOutcome.nullDecodeUB := rfl

/-- Claim C7: the editor command used for the spawn is the constant "vi":
every exec call in any run uses path "vi" and argv[0] "vi", and runs under
operating-system states that differ only in environment variables (such as
EDITOR) and child status are identical. -/
theorem C7_fixed_editor (F : String) (os os' : OsEnv)
    (hf : os.forkRes = os'.forkRes) (he : os.execFails = os'.execFails) :
    open_editor F os = open_editor F os' ∧
    ∀ p argv, Event.exec p argv ∈ (open_editor F os).1 →
      p = "vi" ∧ argv.head? = some "vi" := by
  refine ⟨open_editor_reads_only_fork_exec F os os' hf he, ?_⟩
  intro p argv hmem
  by_cases h1 : os.forkRes = -1
  · simp [open_editor, h1, returnErr] at hmem
  · by_cases h2 : os.forkRes = 0
    · cases hb : os.execFails <;>
        [skip; skip] <;>
        · simp [open_editor, h1, h2, hb, returnErr] at hmem
          exact ⟨hmem.1, by simp [hmem.2]⟩
    · simp [open_editor, h1, h2] at hmem

/-- Claim C7 witness at a concrete input: two states differing only in the
EDITOR environment variable and the child status give the same run, whose
exec call uses "vi". -/
theorem C7_fixed_editor_witness :
    open_editor "a.txt" ⟨0, false, [("EDITOR", "emacs")], 7⟩ =
        open_editor "a.txt" ⟨0, false, [], 0⟩ ∧
      ∀ p argv,
        Event.exec p argv ∈
            (open_editor "a.txt" ⟨0, false, [("EDITOR", "emacs")], 7⟩).1 →
          p = "vi" ∧ argv.head? = some "vi" :=
  C7_fixed_editor "a.txt" ⟨0, false, [("EDITOR", "emacs")], 7⟩
    ⟨0, false, [], 0⟩ rfl rfl

/-- Claim C8: failure is idempotent across filenames: for any two filenames
and any two states in which fork fails, the whole observable run is
identical, with exit status -1 and the same standard-error output. -/
theorem C8_failure_idempotent (F1 F2 : String) (os1 os2 : OsEnv)
    (h1 : os1.forkRes = -1) (h2 : os2.forkRes = -1) :
    open_editor F1 os1 = open_editor F2 os2 ∧
    (open_editor F1 os1).2 = Result.exited (-1) ∧
    stderrOutput (open_editor F1 os1).1 = stderrOutput (open_editor F2 os2).1 := by
  have e1 : open_editor F1 os1 = (Event.fork :: returnErr, Result.exited (-1)) := by
    simp [open_editor, h1]
  have e2 : open_editor F2 os2 = (Event.fork :: returnErr, Result.exited (-1)) := by
    simp [open_editor, h2]
  rw [e1, e2]
  exact ⟨rfl, rfl, rfl⟩

/-- Claim C8 witness at concrete inputs. -/
theorem C8_failure_idempotent_witness :
    open_editor "a.txt" ⟨-1, false, [], 0⟩ =
        open_editor "b.md" ⟨-1, true, [("EDITOR", "nano")], 3⟩ ∧
      (open_editor "a.txt" ⟨-1, false, [], 0⟩).2 = Result.exited (-1) ∧
      stderrOutput (open_editor "a.txt" ⟨-1, false, [], 0⟩).1 =
        stderrOutput (open_editor "b.md" ⟨-1, true, [("EDITOR", "nano")], 3⟩).1 :=
  C8_failure_idempotent "a.txt" "b.md" ⟨-1, false, [], 0⟩
    ⟨-1, true, [("EDITOR", "nano")], 3⟩ rfl rfl

/-- Claim C9: the parent reaping wait carries no target pid (every wait
call in the run has target none), and under the pid-unfiltered wait
semantics there is a set of terminated children containing the editor child
in which the reaped child is not the editor child, so the launcher can
return while the spawned editor is still running. -/
theorem C9_wait_not_pid_specific (F : String) (os : OsEnv)
    (h : 0 < os.forkRes) :
    waitCalls (open_editor F os).1 = [(none, false)] ∧
    (∀ tgt b, Event.wait tgt b ∈ (open_editor F os).1 → tgt = none) ∧
    ∃ (terminated : List Nat) (editorPid : Nat),
      editorPid ∈ terminated ∧ waitAnyReaps terminated ≠ some editorPid := by
  have h1 : os.forkRes ≠ -1 := by omega
  have h2 : os.forkRes ≠ 0 := by omega
  refine ⟨?_, ?_, [7, 42], 42, by decide, by decide⟩
  · simp [open_editor, h1, h2, waitCalls]
  · intro tgt b hmem
    simp [open_editor, h1, h2] at hmem
    exact hmem.1

/-- Claim C9 witness at a concrete input. -/
theorem C9_wait_not_pid_specific_witness :
    waitCalls (open_editor "a.txt" ⟨9, false, [], 0⟩).1 = [(none, false)] ∧
      (∀ tgt b, Event.wait tgt b ∈ (open_editor "a.txt" ⟨9, false, [], 0⟩).1 →
        tgt = none) ∧
      ∃ (terminated : List Nat) (editorPid : Nat),
        editorPid ∈ terminated ∧ waitAnyReaps terminated ≠ some editorPid :=
  C9_wait_not_pid_specific "a.txt" ⟨9, false, [], 0⟩ (by decide)

/-- Claim C10: on the success paths (fork returns a positive pid in the
parent, or the child runs and its exec succeeds) the launcher writes
nothing to the standard output or standard error streams. -/
theorem C10_quiet_success (F : String) (os : OsEnv)
    (h : 0 < os.forkRes ∨ (os.forkRes = 0 ∧ os.execFails = false)) :
    stdStreamWrites (open_editor F os).1 = [] := by
  rcases h with h | ⟨h0, hb⟩
  · have h1 : os.forkRes ≠ -1 := by omega
    have h2 : os.forkRes ≠ 0 := by omega
    simp [open_editor, h1, h2, stdStreamWrites]
  · simp [open_editor, h0, hb, stdStreamWrites]

/-- Claim C10 witness at a concrete input. -/
theorem C10_quiet_success_witness :
    stdStreamWrites (open_editor "a.txt" ⟨0, false, [], 0⟩).1 = [] :=
  C10_quiet_success "a.txt" ⟨0, false, [], 0⟩ (Or.inr ⟨rfl, rfl⟩)

end ReVCS
